import Mathlib

/-!
Verification of the Anoma hello-world example applications
(`examples/hello-world` and `examples/hello-world-start`) against their
design specification.

The application crates in the repository are shallowly embedded below,
following the Rust sources (`init.rs`, `util.rs`, `main.rs`,
`hello_world_witness/src/lib.rs`, `hello_world_library/src/lib.rs`).
The `arm` crate they build on (resources, nullifier keys, Merkle action
trees, compliance units, delta proofs, transactions) is not part of this
repository; those parts are modelled from the specification, with
cryptographic digests represented as a free algebra over their
derivations, so that the primitives' stated contracts (determinism,
collision resistance / binding) hold by construction, and with an
idealized proving backend that is sound and complete by construction.

Byte strings are lists of naturals; a Rust `[u8; 32]` or 32-byte
`Vec<u8>` becomes a `List Nat` of length 32.
-/

namespace Anoma

abbrev Bytes := List Nat

/-- The UTF-8 bytes of the string literal `"Hello World"`. -/
def helloWorldBytes : Bytes :=
  [72, 101, 108, 108, 111, 32, 87, 111, 114, 108, 100]

/-- `n`-byte little-endian encoding of a natural number; embeds Rust's
`u128::to_le_bytes` (with `n = 16`). -/
def leBytes : Nat → Nat → Bytes
  | 0, _ => []
  | n + 1, v => v % 256 :: leBytes n (v / 256)

/-- Little-endian decoding of a byte string; the inverse direction of
`leBytes`, used to state the round-trip property. -/
def leDecode : Bytes → Nat
  | [] => 0
  | b :: rest => b + 256 * leDecode rest

/-- Embeds `convert_hello_world_to_value_ref` from
`hello_world_app/src/init.rs` (identical copies in `util.rs` and in the
`hello-world-start` variant): write `value.to_le_bytes()` (16 bytes,
little-endian) into the first half of a zeroed 32-byte array. -/
def convert_hello_world_to_value_ref (value : Nat) : Bytes :=
  leBytes 16 value ++ List.replicate 16 0

/-- Embeds `convert_text_to_label_ref` from the `hello-world-start`
variant's `util.rs`: copy at most the first 32 bytes of the text into a
zeroed 32-byte array. The text argument is its UTF-8 byte string. -/
def convert_text_to_label_ref (text : Bytes) : Bytes :=
  let copy_len := min text.length 32
  text.take copy_len ++ List.replicate (32 - copy_len) 0

/-- Modelled from the spec: the secret half of the `arm` crate's
`NullifierKey` keypair ("the secret key authorizes nullifier
computation"); `random_pair()`'s randomness is made explicit by taking
the key itself as an input wherever the sources draw one. -/
structure NullifierKey where
  key : Bytes
deriving DecidableEq, Repr

/-- Modelled from the spec: the public binding half of the keypair,
stored in a resource.  Represented by the data it commits to, so the
commitment is binding (injective) and deterministic by construction. -/
structure NullifierKeyCommitment where
  cm : Bytes
deriving DecidableEq, Repr

/-- Modelled from the spec: the commitment of a nullifier keypair, as
produced by `NullifierKey::random_pair()`. -/
def NullifierKey.commit (k : NullifierKey) : NullifierKeyCommitment :=
  ⟨k.key⟩

/-- Modelled from the spec: the `arm` crate's `Resource` with the fields
the spec lists — logic circuit reference, 32-byte label and value
payloads, quantity/type tag, ephemerality flag, nonce, nullifier-key
commitment — plus the internal randomness (`rand_seed`) that
`reset_randomness` refreshes. -/
structure Resource where
  logic_ref : Bytes
  label_ref : Bytes
  quantity : Nat
  value_ref : Bytes
  is_ephemeral : Bool
  nonce : Bytes
  nk_commitment : NullifierKeyCommitment
  rand_seed : Bytes
deriving DecidableEq, Repr

/-- Modelled from the spec: `Resource::create` with all arguments
mandatory; it rejects mismatched buffer lengths for the fixed-size
32-byte fields ("shorter input is a caller bug and must be rejected"),
a rejection rendered as `none`.  The internal randomness drawn at
creation time is the explicit `seed` argument. -/
def Resource.create (logic_ref label_ref : Bytes) (quantity : Nat)
    (value_ref : Bytes) (is_ephemeral : Bool) (nonce : Bytes)
    (nk_commitment : NullifierKeyCommitment) (seed : Bytes) : Option Resource :=
  if label_ref.length = 32 ∧ value_ref.length = 32 ∧ nonce.length = 32 then
    some ⟨logic_ref, label_ref, quantity, value_ref, is_ephemeral, nonce,
      nk_commitment, seed⟩
  else none

/-- Modelled from the spec: digests produced by the cryptographic
primitives (tree combine, resource commitment, resource nullifier),
represented as a free algebra over their derivations so that the
primitives' contracts — determinism and collision resistance /
binding — hold by construction.  `padding` is the root of a tree with
no leaves. -/
inductive Digest where
  | node (l r : Digest) : Digest
  | commitOf (r : Resource) : Digest
  | nullifierOf (r : Resource) (k : NullifierKey) : Digest
  | padding : Digest
deriving DecidableEq, Repr

/-- Modelled from the spec: `Resource::commitment()`, a deterministic
binding one-way function of all resource fields. -/
def Resource.commitment (r : Resource) : Digest :=
  Digest.commitOf r

/-- Modelled from the spec: `Resource::nullifier(key)`, a deterministic
one-way function of all resource fields and the holder's secret key. -/
def Resource.nullifier (r : Resource) (k : NullifierKey) : Digest :=
  Digest.nullifierOf r k

/-- Modelled from the spec: a resource's `tag` — "the nullifier if
consumed, else the commitment". -/
def Resource.tag (r : Resource) (is_consumed : Bool) (k : NullifierKey) :
    Digest :=
  if is_consumed then r.nullifier k else r.commitment

/-- A concrete byte encoding of a digest, standing in for the raw digest
bytes (`as_bytes`/`as_words`) that the `arm` crate exposes. -/
def Digest.enc : Digest → Bytes
  | .node l r => 0 :: l.enc.length :: (l.enc ++ r.enc)
  | .commitOf r => 1 :: (r.label_ref ++ r.value_ref ++ r.nonce)
  | .nullifierOf r k => 2 :: (r.nonce ++ k.key)
  | .padding => [3]

/-- Modelled from the spec: `set_nonce_from_nf` — "deriving the new
nonce deterministically from the consumed resource and the nullifier key
used to consume it".  The nonce becomes the byte encoding of the
consumed resource's nullifier. -/
def Resource.set_nonce_from_nf (r consumed : Resource) (k : NullifierKey) :
    Resource :=
  { r with nonce := (consumed.nullifier k).enc }

/-- Modelled from the spec: `reset_randomness` replaces the resource's
internal randomness with fresh random values, made explicit as the
`fresh` argument. -/
def Resource.reset_randomness (r : Resource) (fresh : Bytes) : Resource :=
  { r with rand_seed := fresh }

/-- Modelled from the spec: `set_value_ref` replaces the value payload. -/
def Resource.set_value_ref (r : Resource) (v : Bytes) : Resource :=
  { r with value_ref := v }

/-- Modelled from the spec: `set_nf_commitment` rebinds the resource to
a new nullifier-key commitment. -/
def Resource.set_nf_commitment (r : Resource) (c : NullifierKeyCommitment) :
    Resource :=
  { r with nk_commitment := c }

/-- Modelled from the spec: a Merkle membership path — "the sibling
hashes and left/right flags needed to recompute the root from that
leaf".  The flag is `true` when the sibling sits on the left.
`MerklePath::default()` is the empty path. -/
structure MerklePath where
  siblings : List (Digest × Bool)
deriving DecidableEq, Repr

instance : Inhabited MerklePath := ⟨⟨[]⟩⟩

/-- Modelled from the spec: `MerklePath::root(tag)` recomputes the root
a given leaf+path would imply, using `tag` as the leaf. -/
def MerklePath.root (p : MerklePath) (tag : Digest) : Digest :=
  p.siblings.foldl
    (fun acc sib => if sib.2 then Digest.node sib.1 acc else Digest.node acc sib.1)
    tag

/-- Modelled from the spec: the action tree, "a deterministic binary
hash tree over an ordered sequence" of leaves. -/
structure MerkleTree where
  leaves : List Digest
deriving DecidableEq, Repr

/-- Modelled from the spec: `MerkleTree::new(leaves)`. -/
def MerkleTree.new (leaves : List Digest) : MerkleTree :=
  ⟨leaves⟩

/-- One level of the deterministic binary hash tree: combine adjacent
pairs in order; an unpaired last node is carried up unchanged (the spec
fixes only that the construction is deterministic and order-sensitive). -/
def levelUp : List Digest → List Digest
  | a :: b :: rest => Digest.node a b :: levelUp rest
  | l => l

/-- Root of a level list, with fuel bounding the number of levels. -/
def rootAux : Nat → List Digest → Digest
  | _, [d] => d
  | 0, _ => Digest.padding
  | fuel + 1, level => rootAux fuel (levelUp level)

/-- Modelled from the spec: the tree's root. -/
def MerkleTree.root (t : MerkleTree) : Digest :=
  rootAux t.leaves.length t.leaves

/-- First index of a leaf in a level, `none` if the exact leaf value is
absent (no fuzzy matching). -/
def idxOf (x : Digest) : List Digest → Option Nat
  | [] => none
  | a :: rest => if a = x then some 0 else (idxOf x rest).map (· + 1)

/-- Sibling/flag list for the leaf at index `i`, walking up the levels. -/
def pathAux : Nat → List Digest → Nat → List (Digest × Bool)
  | 0, _, _ => []
  | fuel + 1, level, i =>
    if level.length ≤ 1 then []
    else
      let sib := if i % 2 = 0 then level.get? (i + 1) else level.get? (i - 1)
      let rest := pathAux fuel (levelUp level) (i / 2)
      match sib with
      | some s => (s, decide (i % 2 = 1)) :: rest
      | none => rest

/-- Modelled from the spec: `MerkleTree::generate_path(leaf)` returns
the membership path of the first occurrence of `leaf`, and fails with a
"leaf not found" condition (`none`) if the exact leaf value is absent. -/
def MerkleTree.generate_path (t : MerkleTree) (leaf : Digest) :
    Option MerklePath :=
  (idxOf leaf t.leaves).map fun i => ⟨pathAux t.leaves.length t.leaves i⟩

/-- The 32 bytes of `HELLO_WORLD_ID`
(`d1dc300a67141213bd29c2cacc550aa37fa3cd062e59a977facc8826e01cfcce`),
the fixed verifying identity of the hello-world logic circuit from
`hello_world_library/src/lib.rs`. -/
def helloWorldVerifyingKeyBytes : Bytes :=
  [209, 220, 48, 10, 103, 20, 18, 19, 189, 41, 194, 202, 204, 85, 10, 163,
   127, 163, 205, 6, 46, 89, 169, 119, 250, 204, 136, 38, 224, 28, 252, 206]

/-- Modelled from the spec: `AppData`, the circuit-specific public
outputs carried by a logic instance; `Default::default()` is all-empty. -/
structure AppData where
  resource_payload : List Bytes := []
  discovery_payload : List Bytes := []
  external_payload : List Bytes := []
  application_payload : List Bytes := []
deriving DecidableEq, Repr

instance : Inhabited AppData := ⟨{}⟩

/-- Modelled from the spec: `LogicInstance`, a logic proof's public
instance — tag, consumption flag, recomputed root, and app data.  The
source stores the tag as its word decomposition (`tag.as_words()`);
the digest itself is kept here. -/
structure LogicInstance where
  tag : Digest
  is_consumed : Bool
  root : Digest
  app_data : AppData
deriving DecidableEq, Repr

/-- Embeds `HelloWorldWitness` from `hello_world_witness/src/lib.rs`. -/
structure HelloWorldWitness where
  is_consumed : Bool
  hello_world : Resource
  hello_world_existence_path : MerklePath
  nf_key : NullifierKey
deriving DecidableEq, Repr

/-- Embeds `HelloWorldWitness::new`. -/
def HelloWorldWitness.new (is_consumed : Bool) (hello_world : Resource)
    (hello_world_existence_path : MerklePath) (nf_key : NullifierKey) :
    HelloWorldWitness :=
  ⟨is_consumed, hello_world, hello_world_existence_path, nf_key⟩

/-- Embeds `HelloWorldWitness::constrain` from
`hello_world_witness/src/lib.rs`.  The source slices
`label_ref[0..11]` (a panic when `label_ref` is shorter than 11 bytes)
and asserts the slice equals `b"Hello World"` (a panic on mismatch);
both panics are rendered as `none`. -/
def HelloWorldWitness.constrain (w : HelloWorldWitness) :
    Option LogicInstance :=
  if 11 ≤ w.hello_world.label_ref.length then
    if w.hello_world.label_ref.take 11 = helloWorldBytes then
      let tag := w.hello_world.tag w.is_consumed w.nf_key
      some
        { tag := tag
          is_consumed := w.is_consumed
          root := w.hello_world_existence_path.root tag
          app_data := default }
    else none
  else none

/-- Modelled from the spec: `LogicVerifier`, the proof object a
`LogicProver` produces — the circuit's declared verifying identity, the
public instance, and the backend proof.  With the idealized
sound-and-complete backend, the proof object is the witness itself. -/
structure LogicVerifier where
  verifying_key : Bytes
  inst : LogicInstance
  proof : HelloWorldWitness
deriving DecidableEq, Repr

/-- Modelled from the spec: backend verification of a logic proof
"against its declared circuit identity and public instance".  With the
idealized backend this accepts exactly when the embedded witness
constrains to the declared instance under the hello-world circuit. -/
def LogicVerifier.verify (lv : LogicVerifier) : Bool :=
  decide (lv.verifying_key = helloWorldVerifyingKeyBytes ∧
    lv.proof.constrain = some lv.inst)

/-- Embeds `HelloWorldLogic` from `hello_world_library/src/lib.rs`. -/
structure HelloWorldLogic where
  witness : HelloWorldWitness
deriving DecidableEq, Repr

/-- Embeds `HelloWorldLogic::new`. -/
def HelloWorldLogic.new (is_consumed : Bool) (hello_world : Resource)
    (hello_world_existence_path : MerklePath) (nf_key : NullifierKey) :
    HelloWorldLogic :=
  ⟨HelloWorldWitness.new is_consumed hello_world hello_world_existence_path
    nf_key⟩

/-- Embeds `HelloWorldLogic::verifying_key_as_bytes()` (from the
`LogicProver` trait): the fixed circuit identity. -/
def HelloWorldLogic.verifying_key_as_bytes : Bytes :=
  helloWorldVerifyingKeyBytes

/-- Modelled from the spec: `LogicProver::prove` — run the circuit on
the witness (a panic inside the circuit is `none`) and package the
proof with the instance and the circuit's verifying identity. -/
def HelloWorldLogic.prove (l : HelloWorldLogic) : Option LogicVerifier :=
  (l.witness.constrain).map fun inst =>
    ⟨HelloWorldLogic.verifying_key_as_bytes, inst, l.witness⟩

/-- Modelled from the spec: `ComplianceWitness` — "the private linkage
between one consumed and one created resource, the authorizing
nullifier key, the membership path of the consumed resource, and a
random blinding scalar (`rcv`)". -/
structure ComplianceWitness where
  consumed : Resource
  nf_key : NullifierKey
  merkle_path : MerklePath
  created : Resource
  rcv : Bytes
deriving DecidableEq, Repr

/-- Modelled from the spec: `ComplianceWitness::from_resources_with_path`;
the fresh random blinding scalar it draws is the explicit `rcv`
argument. -/
def ComplianceWitness.from_resources_with_path (consumed : Resource)
    (nf_key : NullifierKey) (merkle_path : MerklePath) (created : Resource)
    (rcv : Bytes) : ComplianceWitness :=
  ⟨consumed, nf_key, merkle_path, created, rcv⟩

/-- Modelled from the spec: `ComplianceUnit`, the public proof object of
a compliance witness.  It "must reveal the consumed nullifier and
created commitment as public outputs"; the value/blinding delta is kept
as an idealized homomorphic commitment (quantity difference plus
blinding scalar), and the backend proof is the witness itself. -/
structure ComplianceUnit where
  nullifier : Digest
  commitment : Digest
  deltaValue : Int
  deltaBlind : Nat
  proof : ComplianceWitness
deriving DecidableEq, Repr

/-- Modelled from the spec: `ComplianceUnit::create(&witness)`. -/
def ComplianceUnit.create (w : ComplianceWitness) : ComplianceUnit :=
  { nullifier := w.consumed.nullifier w.nf_key
    commitment := w.created.commitment
    deltaValue := (w.consumed.quantity : Int) - (w.created.quantity : Int)
    deltaBlind := leDecode w.rcv
    proof := w }

/-- Modelled from the spec: independent verification of a compliance
unit (binding + proof validity): the revealed nullifier, commitment and
delta must be the ones its proof's witness yields. -/
def ComplianceUnit.verify (u : ComplianceUnit) : Bool :=
  decide (u.nullifier = u.proof.consumed.nullifier u.proof.nf_key ∧
    u.commitment = u.proof.created.commitment ∧
    u.deltaValue = (u.proof.consumed.quantity : Int) -
      (u.proof.created.quantity : Int) ∧
    u.deltaBlind = leDecode u.proof.rcv)

/-- Modelled from the spec: an `Action` — an ordered list of compliance
units and an ordered list of logic proofs, with no cross-validation at
construction time. -/
structure Action where
  compliance_units : List ComplianceUnit
  logic_verifier_inputs : List LogicVerifier
deriving DecidableEq, Repr

/-- Modelled from the spec: `Action::new`. -/
def Action.new (compliance_units : List ComplianceUnit)
    (logic_verifier_inputs : List LogicVerifier) : Action :=
  ⟨compliance_units, logic_verifier_inputs⟩

/-- The nullifiers/commitments exposed by an action's compliance units,
in order. -/
def Action.tags (a : Action) : List Digest :=
  a.compliance_units.flatMap fun u => [u.nullifier, u.commitment]

/-- Modelled from the spec: the cross-check of transaction verification
step 3 — every tag referenced by a logic proof must be a
nullifier/commitment actually produced by one of the action's
compliance units, and every referenced root must equal the action tree
root recomputed from those nullifiers/commitments. -/
def Action.crossCheck (a : Action) : Bool :=
  a.logic_verifier_inputs.all fun lv =>
    decide (lv.inst.tag ∈ a.tags) &&
      decide (lv.inst.root = (MerkleTree.new a.tags).root)

/-- Modelled from the spec: `DeltaWitness::from_bytes(&rcv)` — the
pre-proof delta witness, an aggregate blinding scalar. -/
structure DeltaWitness where
  scalar : Nat
deriving DecidableEq, Repr

def DeltaWitness.from_bytes (b : Bytes) : DeltaWitness :=
  ⟨leDecode b⟩

/-- Modelled from the spec: the finalized delta proof (idealized as a
signature under the aggregate blinding key). -/
structure DeltaProof where
  key : Nat
deriving DecidableEq, Repr

/-- Modelled from the spec: `Delta` is either a raw witness (pre-proof)
or a finalized proof. -/
inductive Delta where
  | witness (w : DeltaWitness) : Delta
  | proof (p : DeltaProof) : Delta
deriving DecidableEq, Repr

/-- Modelled from the spec: `Transaction` — an ordered list of actions
plus one delta. -/
structure Transaction where
  actions : List Action
  delta : Delta
deriving DecidableEq, Repr

/-- Modelled from the spec: `Transaction::create`. -/
def Transaction.create (actions : List Action) (delta : Delta) :
    Transaction :=
  ⟨actions, delta⟩

/-- Modelled from the spec: `generate_delta_proof` consumes the witness
and produces the final proof in place (a one-way transition; a
transaction already holding a proof is unchanged). -/
def Transaction.generate_delta_proof (t : Transaction) : Transaction :=
  match t.delta with
  | .witness w => { t with delta := .proof ⟨w.scalar⟩ }
  | .proof _ => t

/-- Modelled from the spec: transaction verification step 4 — verify the
delta proof against the aggregate of all per-action blinding
commitments, confirming total value conservation; verification against
a witness-only delta fails. -/
def Transaction.deltaOk (t : Transaction) : Bool :=
  match t.delta with
  | .witness _ => false
  | .proof p =>
    let units := t.actions.flatMap (·.compliance_units)
    decide ((units.map (·.deltaValue)).sum = 0) &&
      decide ((units.map (·.deltaBlind)).sum = p.key)

/-- Modelled from the spec: `Transaction::verify()` — verify every
compliance unit, every logic proof, the per-action tag/root
cross-check, and the delta proof. -/
def Transaction.verify (t : Transaction) : Bool :=
  t.actions.all (fun a => a.compliance_units.all ComplianceUnit.verify) &&
    t.actions.all (fun a => a.logic_verifier_inputs.all LogicVerifier.verify) &&
    t.actions.all Action.crossCheck &&
    t.deltaOk

/-- Embeds `generate_ephemeral_resource` from
`hello_world_app/src/init.rs`: logic reference from the circuit's
verifying key, label `"Hello World"` zero-padded to 32 bytes, quantity
`1`, value `0`, ephemeral, random nonce.  The random nonce and the
creation-time randomness are explicit arguments. -/
def generate_ephemeral_resource (nk_commitment : NullifierKeyCommitment)
    (nonce seed : Bytes) : Option Resource :=
  Resource.create HelloWorldLogic.verifying_key_as_bytes
    (helloWorldBytes ++ List.replicate 21 0) 1
    (convert_hello_world_to_value_ref 0) true nonce nk_commitment seed

/-- Embeds `generate_persistent_resource` from
`hello_world_app/src/init.rs` (identically,
`generate_persistent_hello_world_resource` in the `hello-world-start`
variant): clone the consumed resource, clear the ephemeral flag,
refresh the randomness (explicit `fresh` argument), derive the nonce
from the consumed resource's nullifier, set the value to `1`, rebind
the nullifier-key commitment. -/
def generate_persistent_resource (consumed_resource : Resource)
    (eph_nf_key : NullifierKey) (nf_key_cm : NullifierKeyCommitment)
    (fresh : Bytes) : Resource :=
  let r0 := { consumed_resource with is_ephemeral := false }
  let r1 := r0.reset_randomness fresh
  let r2 := r1.set_nonce_from_nf consumed_resource eph_nf_key
  let r3 := r2.set_value_ref (convert_hello_world_to_value_ref 1)
  r3.set_nf_commitment nf_key_cm

/-- Embeds `generate_compliance_proof` from
`hello_world_app/src/util.rs`; the compliance witness's fresh blinding
scalar is the explicit `rcv` argument. -/
def generate_compliance_proof (consumed_resource : Resource)
    (nullifier_key : NullifierKey) (merkle_path : MerklePath)
    (created_resource : Resource) (rcv : Bytes) : ComplianceUnit × Bytes :=
  let compliance_witness := ComplianceWitness.from_resources_with_path
    consumed_resource nullifier_key merkle_path created_resource rcv
  (ComplianceUnit.create compliance_witness, compliance_witness.rcv)

/-- Embeds `generate_logic_proofs` from `hello_world_app/src/util.rs`:
build the action tree over the consumed resource's nullifier and the
created resource's commitment (in that order), then prove the
hello-world logic for the consumed resource (`is_consumed = true`) and
the created resource (`is_consumed = false`) with their membership
paths.  The source's `.unwrap()` panics are rendered as `none`. -/
def generate_logic_proofs (consumed_resource : Resource)
    (nullifier_key : NullifierKey) (created_resource : Resource) :
    Option (List LogicVerifier) := do
  let consumed_resource_nullifier := consumed_resource.nullifier nullifier_key
  let created_resource_commitment := created_resource.commitment
  let action_tree := MerkleTree.new
    [consumed_resource_nullifier, created_resource_commitment]
  let consumed_resource_path ←
    action_tree.generate_path consumed_resource_nullifier
  let consumed_logic_proof ←
    (HelloWorldLogic.new true consumed_resource consumed_resource_path
      nullifier_key).prove
  let created_resource_path ←
    action_tree.generate_path created_resource_commitment
  let created_logic_proof ←
    (HelloWorldLogic.new false created_resource created_resource_path
      nullifier_key).prove
  pure [consumed_logic_proof, created_logic_proof]

/-- Embeds `create_transaction` from `hello_world_app/src/main.rs`.
Every random draw of the source (`NullifierKey::random_pair()` twice,
the ephemeral nonce, the two resources' creation/refresh randomness,
and the compliance blinding scalar) is an explicit argument; panics
propagate as `none`. -/
def create_transaction (ephemeral_nf_key : NullifierKey)
    (eph_nonce eph_seed : Bytes)
    (persistent_nf_key_commitment : NullifierKeyCommitment)
    (pers_fresh : Bytes) (rcv : Bytes) : Option Transaction := do
  let consumed_resource ← generate_ephemeral_resource
    ephemeral_nf_key.commit eph_nonce eph_seed
  let created_resource := generate_persistent_resource consumed_resource
    ephemeral_nf_key persistent_nf_key_commitment pers_fresh
  let pr := generate_compliance_proof consumed_resource ephemeral_nf_key
    default created_resource rcv
  let logic_verifier_inputs ← generate_logic_proofs consumed_resource
    ephemeral_nf_key created_resource
  let action := Action.new [pr.1] logic_verifier_inputs
  let delta_witness := DeltaWitness.from_bytes pr.2
  let transaction := Transaction.create [action] (Delta.witness delta_witness)
  pure transaction.generate_delta_proof

theorem leBytes_length (n v : Nat) : (leBytes n v).length = n := by
  induction n generalizing v with
  | zero => rfl
  | succ n ih => simp [leBytes, ih]

theorem leDecode_leBytes (n v : Nat) (h : v < 256 ^ n) :
    leDecode (leBytes n v) = v := by
  induction n generalizing v with
  | zero =>
    interval_cases v
    rfl
  | succ n ih =>
    have hdiv : v / 256 < 256 ^ n := by
      rw [Nat.div_lt_iff_lt_mul (by norm_num)]
      calc v < 256 ^ (n + 1) := h
        _ = 256 ^ n * 256 := by ring
    simp [leBytes, leDecode, ih _ hdiv, Nat.mod_add_div]

theorem leDecode_replicate_zero (k : Nat) :
    leDecode (List.replicate k 0) = 0 := by
  induction k with
  | zero => rfl
  | succ k ih => simp [List.replicate_succ, leDecode, ih]

theorem leDecode_append_zeros (b : Bytes) (k : Nat) :
    leDecode (b ++ List.replicate k 0) = leDecode b := by
  induction b with
  | nil => simp [leDecode, leDecode_replicate_zero]
  | cons x rest ih => simp [leDecode, ih]

/-- C7: for every `u128` value `v`, `convert_hello_world_to_value_ref v`
is exactly 32 bytes: the 16-byte little-endian encoding of `v` followed
by 16 zero bytes, and decoding the first 16 bytes as little-endian
recovers `v` exactly. -/
theorem convert_value_ref_roundtrip (v : Nat) (hv : v < 2 ^ 128) :
    (convert_hello_world_to_value_ref v).length = 32 ∧
    (convert_hello_world_to_value_ref v).take 16 = leBytes 16 v ∧
    (convert_hello_world_to_value_ref v).drop 16 = List.replicate 16 0 ∧
    leDecode ((convert_hello_world_to_value_ref v).take 16) = v := by
  have hlen : (leBytes 16 v).length = 16 := leBytes_length 16 v
  have htake : (convert_hello_world_to_value_ref v).take 16 = leBytes 16 v :=
    List.take_left' hlen
  refine ⟨?_, htake, ?_, ?_⟩
  · simp [convert_hello_world_to_value_ref, hlen]
  · exact List.drop_left' hlen
  · rw [htake]
    exact leDecode_leBytes 16 v (by norm_num at hv ⊢; exact hv)

/-- C7 witness at `v = 1` (and the claim's other highlighted input `v = 0`
follows the same way). -/
theorem convert_value_ref_roundtrip_witness :
    (1 : Nat) < 2 ^ 128 ∧
    ((convert_hello_world_to_value_ref 1).length = 32 ∧
      (convert_hello_world_to_value_ref 1).take 16 = leBytes 16 1 ∧
      (convert_hello_world_to_value_ref 1).drop 16 = List.replicate 16 0 ∧
      leDecode ((convert_hello_world_to_value_ref 1).take 16) = 1) :=
  ⟨by norm_num, convert_value_ref_roundtrip 1 (by norm_num)⟩

/-- C8: for every text (as its UTF-8 bytes), `convert_text_to_label_ref`
returns exactly 32 bytes: the first `min |s| 32` bytes of the text,
followed by zeros.  Text of at most 32 bytes is hence recoverable from
the prefix; longer text is truncated to its first 32 bytes. -/
theorem convert_text_to_label_ref_spec (text : Bytes) :
    (convert_text_to_label_ref text).length = 32 ∧
    (convert_text_to_label_ref text).take (min text.length 32) =
      text.take (min text.length 32) ∧
    (convert_text_to_label_ref text).drop (min text.length 32) =
      List.replicate (32 - min text.length 32) 0 := by
  have hlen : (text.take (min text.length 32)).length = min text.length 32 := by
    simp [List.length_take]
  have key : convert_text_to_label_ref text =
      text.take (min text.length 32) ++
        List.replicate (32 - min text.length 32) 0 := rfl
  refine ⟨?_, ?_, ?_⟩
  · rw [key]
    simp [hlen]
  · rw [key, List.take_left' hlen]
  · rw [key, List.drop_left' hlen]

/-! Helper lemmas shared by the claim theorems. -/

theorem helloLabel_take :
    (helloWorldBytes ++ List.replicate 21 0).take 11 = helloWorldBytes := by
  decide

theorem helloLabel_len :
    11 ≤ (helloWorldBytes ++ List.replicate 21 0).length := by
  decide

/-- Evaluation of `constrain` when the label check passes. -/
theorem constrain_eq_some (w : HelloWorldWitness)
    (h1 : 11 ≤ w.hello_world.label_ref.length)
    (h2 : w.hello_world.label_ref.take 11 = helloWorldBytes) :
    w.constrain = some
      { tag := w.hello_world.tag w.is_consumed w.nf_key
        is_consumed := w.is_consumed
        root := w.hello_world_existence_path.root
          (w.hello_world.tag w.is_consumed w.nf_key)
        app_data := default } := by
  simp [HelloWorldWitness.constrain, h1, h2]

/-- Evaluation of `HelloWorldLogic::prove` when the label check passes. -/
theorem prove_eq_some (b : Bool) (r : Resource) (p : MerklePath)
    (k : NullifierKey) (h1 : 11 ≤ r.label_ref.length)
    (h2 : r.label_ref.take 11 = helloWorldBytes) :
    (HelloWorldLogic.new b r p k).prove = some
      ⟨HelloWorldLogic.verifying_key_as_bytes,
        { tag := r.tag b k
          is_consumed := b
          root := p.root (r.tag b k)
          app_data := default },
        HelloWorldWitness.new b r p k⟩ := by
  simp [HelloWorldLogic.prove, HelloWorldLogic.new, HelloWorldWitness.new,
    constrain_eq_some ⟨b, r, p, k⟩ h1 h2]

/-- A two-leaf tree's root is the combine of its leaves, in order. -/
theorem root_pair (a b : Digest) :
    (MerkleTree.new [a, b]).root = Digest.node a b := by
  simp [MerkleTree.new, MerkleTree.root, rootAux, levelUp]

/-- Membership path of the first leaf of a two-leaf tree. -/
theorem generate_path_pair_left (a b : Digest) :
    (MerkleTree.new [a, b]).generate_path a = some ⟨[(b, false)]⟩ := by
  simp [MerkleTree.new, MerkleTree.generate_path, idxOf, pathAux, levelUp]

/-- Membership path of the second leaf of a two-leaf tree. -/
theorem generate_path_pair_right (a b : Digest) (hne : a ≠ b) :
    (MerkleTree.new [a, b]).generate_path b = some ⟨[(a, true)]⟩ := by
  simp [MerkleTree.new, MerkleTree.generate_path, idxOf, hne, pathAux, levelUp]

/-- Recomputing a root along a one-sibling path. -/
theorem path_root_single (s : Digest) (flag : Bool) (tag : Digest) :
    MerklePath.root ⟨[(s, flag)]⟩ tag =
      (if flag then Digest.node s tag else Digest.node tag s) := by
  cases flag <;> simp [MerklePath.root]

/-- A resource's nullifier and a resource's commitment never coincide
(distinct derivations in the digest algebra). -/
theorem nullifier_ne_commitment (r r' : Resource) (k : NullifierKey) :
    r.nullifier k ≠ r'.commitment := by
  simp [Resource.nullifier, Resource.commitment]

/-- The resource value `generate_ephemeral_resource` constructs. -/
def ephemeralResourceVal (nk : NullifierKeyCommitment)
    (nonce seed : Bytes) : Resource :=
  { logic_ref := HelloWorldLogic.verifying_key_as_bytes
    label_ref := helloWorldBytes ++ List.replicate 21 0
    quantity := 1
    value_ref := convert_hello_world_to_value_ref 0
    is_ephemeral := true
    nonce := nonce
    nk_commitment := nk
    rand_seed := seed }

/-- Explicit form of `generate_ephemeral_resource`. -/
theorem generate_ephemeral_resource_eq (nk : NullifierKeyCommitment)
    (nonce seed : Bytes) (h : nonce.length = 32) :
    generate_ephemeral_resource nk nonce seed =
      some (ephemeralResourceVal nk nonce seed) := by
  unfold generate_ephemeral_resource Resource.create ephemeralResourceVal
  rw [if_pos ⟨by decide, by decide, h⟩]

theorem ephemeralResourceVal_label_len (nk : NullifierKeyCommitment)
    (nonce seed : Bytes) :
    11 ≤ (ephemeralResourceVal nk nonce seed).label_ref.length :=
  helloLabel_len

theorem ephemeralResourceVal_label_take (nk : NullifierKeyCommitment)
    (nonce seed : Bytes) :
    (ephemeralResourceVal nk nonce seed).label_ref.take 11 =
      helloWorldBytes :=
  helloLabel_take

/-- Explicit form of `generate_persistent_resource`: a record update of
the consumed resource. -/
theorem generate_persistent_resource_eq (consumed : Resource)
    (k : NullifierKey) (cm : NullifierKeyCommitment) (fresh : Bytes) :
    generate_persistent_resource consumed k cm fresh =
      { consumed with
        is_ephemeral := false
        rand_seed := fresh
        nonce := (consumed.nullifier k).enc
        value_ref := convert_hello_world_to_value_ref 1
        nk_commitment := cm } := by
  simp [generate_persistent_resource, Resource.reset_randomness,
    Resource.set_nonce_from_nf, Resource.set_value_ref,
    Resource.set_nf_commitment]

/-- Explicit form of `generate_logic_proofs` when both labels pass the
circuit's check: the action tree is built over the consumed resource's
nullifier and the created resource's commitment in that order, and the
two returned proofs carry those resources' membership paths and the
shared two-leaf root. -/
theorem generate_logic_proofs_eq (consumed : Resource) (k : NullifierKey)
    (created : Resource)
    (h1 : 11 ≤ consumed.label_ref.length)
    (h2 : consumed.label_ref.take 11 = helloWorldBytes)
    (h3 : 11 ≤ created.label_ref.length)
    (h4 : created.label_ref.take 11 = helloWorldBytes) :
    generate_logic_proofs consumed k created = some
      [⟨HelloWorldLogic.verifying_key_as_bytes,
        { tag := consumed.nullifier k
          is_consumed := true
          root := Digest.node (consumed.nullifier k) created.commitment
          app_data := default },
        HelloWorldWitness.new true consumed
          ⟨[(created.commitment, false)]⟩ k⟩,
       ⟨HelloWorldLogic.verifying_key_as_bytes,
        { tag := created.commitment
          is_consumed := false
          root := Digest.node (consumed.nullifier k) created.commitment
          app_data := default },
        HelloWorldWitness.new false created
          ⟨[(consumed.nullifier k, true)]⟩ k⟩] := by
  have hne : consumed.nullifier k ≠ created.commitment :=
    nullifier_ne_commitment consumed created k
  have hp1 := generate_path_pair_left (consumed.nullifier k) created.commitment
  have hp2 := generate_path_pair_right (consumed.nullifier k)
    created.commitment hne
  have hprove1 := prove_eq_some true consumed
    ⟨[(created.commitment, false)]⟩ k h1 h2
  have hprove2 := prove_eq_some false created
    ⟨[(consumed.nullifier k, true)]⟩ k h3 h4
  simp [generate_logic_proofs, hp1, hp2, hprove1, hprove2, Resource.tag,
    path_root_single]

/-- C2: `HelloWorldWitness::constrain` returns successfully exactly when
the resource's `label_ref` has at least 11 bytes and its first 11 bytes
are the UTF-8 bytes of `"Hello World"`; otherwise it panics.  The
outcome is unchanged under any replacement of the resource's
`value_ref`: no value-progression predicate is enforced. -/
theorem constrain_success_iff_label (w : HelloWorldWitness) :
    ((w.constrain).isSome ↔
      (11 ≤ w.hello_world.label_ref.length ∧
        w.hello_world.label_ref.take 11 = helloWorldBytes)) ∧
    ∀ vr : Bytes,
      (({ w with
            hello_world := { w.hello_world with value_ref := vr } } :
          HelloWorldWitness).constrain).isSome ↔
        (11 ≤ w.hello_world.label_ref.length ∧
          w.hello_world.label_ref.take 11 = helloWorldBytes) := by
  have gen : ∀ w' : HelloWorldWitness, ((w'.constrain).isSome ↔
      (11 ≤ w'.hello_world.label_ref.length ∧
        w'.hello_world.label_ref.take 11 = helloWorldBytes)) := by
    intro w'
    by_cases hl : 11 ≤ w'.hello_world.label_ref.length
    · by_cases ht : w'.hello_world.label_ref.take 11 = helloWorldBytes
      · simp [HelloWorldWitness.constrain, hl, ht]
      · simp [HelloWorldWitness.constrain, hl, ht]
    · simp [HelloWorldWitness.constrain, hl]
  exact ⟨gen w, fun vr => gen _⟩

/-- C4: whenever `constrain` succeeds, the returned `LogicInstance`
carries the resource's tag (the nullifier if consumed, else the
commitment), the witness's consumption flag unchanged, the root
recomputed from the witness's membership path with that tag as leaf,
and the default (empty) app data. -/
theorem constrain_instance_spec (w : HelloWorldWitness)
    (inst : LogicInstance) (h : w.constrain = some inst) :
    inst.tag = w.hello_world.tag w.is_consumed w.nf_key ∧
    (w.hello_world.tag w.is_consumed w.nf_key =
      if w.is_consumed then w.hello_world.nullifier w.nf_key
      else w.hello_world.commitment) ∧
    inst.is_consumed = w.is_consumed ∧
    inst.root = w.hello_world_existence_path.root
      (w.hello_world.tag w.is_consumed w.nf_key) ∧
    inst.app_data = default := by
  unfold HelloWorldWitness.constrain at h
  by_cases hl : 11 ≤ w.hello_world.label_ref.length
  · by_cases ht : w.hello_world.label_ref.take 11 = helloWorldBytes
    · simp only [hl, ht, if_pos, if_true] at h
      cases h
      exact ⟨rfl, rfl, rfl, rfl, rfl⟩
    · simp [hl, ht] at h
  · simp [hl] at h

/-- A concrete hello-world resource used to instantiate witnesses. -/
def sampleResource : Resource :=
  { logic_ref := HelloWorldLogic.verifying_key_as_bytes
    label_ref := helloWorldBytes ++ List.replicate 21 0
    quantity := 1
    value_ref := convert_hello_world_to_value_ref 0
    is_ephemeral := true
    nonce := List.replicate 32 0
    nk_commitment := ⟨[]⟩
    rand_seed := [] }

/-- A concrete logic witness over `sampleResource`. -/
def sampleWitness : HelloWorldWitness :=
  ⟨true, sampleResource, ⟨[]⟩, ⟨[]⟩⟩

/-- The instance `sampleWitness` constrains to. -/
def sampleInstance : LogicInstance :=
  { tag := Digest.nullifierOf sampleResource ⟨[]⟩
    is_consumed := true
    root := Digest.nullifierOf sampleResource ⟨[]⟩
    app_data := default }

/-- C4 witness: the field characterization holds at a concrete witness
whose `constrain` succeeds. -/
theorem constrain_instance_spec_witness :
    sampleWitness.constrain = some sampleInstance ∧
    (sampleInstance.tag =
        sampleWitness.hello_world.tag sampleWitness.is_consumed
          sampleWitness.nf_key ∧
      (sampleWitness.hello_world.tag sampleWitness.is_consumed
          sampleWitness.nf_key =
        if sampleWitness.is_consumed then
          sampleWitness.hello_world.nullifier sampleWitness.nf_key
        else sampleWitness.hello_world.commitment) ∧
      sampleInstance.is_consumed = sampleWitness.is_consumed ∧
      sampleInstance.root = sampleWitness.hello_world_existence_path.root
        (sampleWitness.hello_world.tag sampleWitness.is_consumed
          sampleWitness.nf_key) ∧
      sampleInstance.app_data = default) :=
  ⟨by decide, constrain_instance_spec sampleWitness sampleInstance (by decide)⟩

/-- C3: the persistent resource derived from any consumed resource,
nullifier key and new key commitment is non-ephemeral, carries the
32-byte encoding of the integer 1 as value payload, the supplied new
nullifier-key commitment, and a nonce derived by `set_nonce_from_nf`
from the consumed resource and the nullifier key — hence determined by
those two inputs alone, whatever the commitment and fresh randomness. -/
theorem generate_persistent_resource_spec (consumed : Resource)
    (k : NullifierKey) (cm : NullifierKeyCommitment) (fresh : Bytes) :
    (generate_persistent_resource consumed k cm fresh).is_ephemeral = false ∧
    (generate_persistent_resource consumed k cm fresh).value_ref =
      convert_hello_world_to_value_ref 1 ∧
    convert_hello_world_to_value_ref 1 = 1 :: List.replicate 31 0 ∧
    (generate_persistent_resource consumed k cm fresh).nk_commitment = cm ∧
    (generate_persistent_resource consumed k cm fresh).nonce =
      (consumed.nullifier k).enc ∧
    ∀ (cm' : NullifierKeyCommitment) (fresh' : Bytes),
      (generate_persistent_resource consumed k cm' fresh').nonce =
        (consumed.nullifier k).enc := by
  refine ⟨?_, ?_, by decide, ?_, ?_, fun cm' fresh' => ?_⟩ <;>
    rw [generate_persistent_resource_eq]

/-- C9: two derivations of the persistent resource from identical
inputs but independent fresh randomness agree on every field except the
one `reset_randomness` refreshes; in particular their nonces coincide
and equal the value determined by the consumed resource and the
nullifier key alone. -/
theorem generate_persistent_resource_randomness_invariance
    (consumed : Resource) (k : NullifierKey) (cm : NullifierKeyCommitment)
    (s1 s2 : Bytes) :
    ({ generate_persistent_resource consumed k cm s1 with
        rand_seed := (generate_persistent_resource consumed k cm s2).rand_seed } =
      generate_persistent_resource consumed k cm s2) ∧
    (generate_persistent_resource consumed k cm s1).nonce =
      (generate_persistent_resource consumed k cm s2).nonce ∧
    (generate_persistent_resource consumed k cm s1).nonce =
      (consumed.nullifier k).enc := by
  simp [generate_persistent_resource_eq]

/-- C10: deriving the persistent resource is a pure transformation of a
clone of the consumed resource (the input value itself is untouched):
the result is exactly the consumed resource with only the ephemerality
flag, the refreshed randomness, the nonce, the value payload and the
nullifier-key commitment replaced; its `logic_ref`, `label_ref` and
quantity are the consumed resource's, unchanged. -/
theorem generate_persistent_resource_frame (consumed : Resource)
    (k : NullifierKey) (cm : NullifierKeyCommitment) (fresh : Bytes) :
    generate_persistent_resource consumed k cm fresh =
      { consumed with
        is_ephemeral := false
        rand_seed := fresh
        nonce := (consumed.nullifier k).enc
        value_ref := convert_hello_world_to_value_ref 1
        nk_commitment := cm } ∧
    (generate_persistent_resource consumed k cm fresh).logic_ref =
      consumed.logic_ref ∧
    (generate_persistent_resource consumed k cm fresh).label_ref =
      consumed.label_ref ∧
    (generate_persistent_resource consumed k cm fresh).quantity =
      consumed.quantity := by
  refine ⟨generate_persistent_resource_eq consumed k cm fresh, ?_, ?_, ?_⟩ <;>
    rw [generate_persistent_resource_eq]

/-- C6: the ephemeral resource generated for any nullifier-key
commitment is ephemeral, carries the 32-byte encoding of the integer 0
as value payload, the label `"Hello World"` (11 bytes) zero-padded to
32 bytes, quantity 1, the circuit's verifying-key bytes as logic
reference, and the supplied commitment. -/
theorem generate_ephemeral_resource_spec (nk : NullifierKeyCommitment)
    (nonce seed : Bytes) (h : nonce.length = 32) :
    ∃ r, generate_ephemeral_resource nk nonce seed = some r ∧
      r.is_ephemeral = true ∧
      r.value_ref = convert_hello_world_to_value_ref 0 ∧
      convert_hello_world_to_value_ref 0 = List.replicate 32 0 ∧
      r.label_ref = helloWorldBytes ++ List.replicate 21 0 ∧
      helloWorldBytes.length = 11 ∧
      r.quantity = 1 ∧
      r.logic_ref = HelloWorldLogic.verifying_key_as_bytes ∧
      r.nk_commitment = nk :=
  ⟨_, generate_ephemeral_resource_eq nk nonce seed h, rfl, rfl, by decide,
    rfl, by decide, rfl, rfl, rfl⟩

/-- C6 witness: a concrete run with a 32-byte nonce. -/
theorem generate_ephemeral_resource_spec_witness :
    (List.replicate 32 0 : Bytes).length = 32 ∧
    (∃ r, generate_ephemeral_resource ⟨[]⟩ (List.replicate 32 0) [] = some r ∧
      r.is_ephemeral = true ∧
      r.value_ref = convert_hello_world_to_value_ref 0 ∧
      convert_hello_world_to_value_ref 0 = List.replicate 32 0 ∧
      r.label_ref = helloWorldBytes ++ List.replicate 21 0 ∧
      helloWorldBytes.length = 11 ∧
      r.quantity = 1 ∧
      r.logic_ref = HelloWorldLogic.verifying_key_as_bytes ∧
      r.nk_commitment = ⟨[]⟩) :=
  ⟨by decide,
    generate_ephemeral_resource_spec ⟨[]⟩ (List.replicate 32 0) [] (by decide)⟩

/-- C5: when both resources pass the circuit's label check,
`generate_logic_proofs` builds the action tree over exactly the two
leaves [nullifier of the consumed resource, commitment of the created
resource] in that order and returns exactly two logic proofs: the first
proving the consumed resource with `is_consumed = true`, the second the
created resource with `is_consumed = false`, each carrying that
resource's membership path generated from this tree. -/
theorem generate_logic_proofs_spec (consumed : Resource) (k : NullifierKey)
    (created : Resource)
    (h1 : 11 ≤ consumed.label_ref.length)
    (h2 : consumed.label_ref.take 11 = helloWorldBytes)
    (h3 : 11 ≤ created.label_ref.length)
    (h4 : created.label_ref.take 11 = helloWorldBytes) :
    ∃ p1 p2 i1 i2,
      (MerkleTree.new [consumed.nullifier k, created.commitment]).generate_path
        (consumed.nullifier k) = some p1 ∧
      (MerkleTree.new [consumed.nullifier k, created.commitment]).generate_path
        created.commitment = some p2 ∧
      generate_logic_proofs consumed k created = some
        [⟨HelloWorldLogic.verifying_key_as_bytes, i1,
          HelloWorldWitness.new true consumed p1 k⟩,
         ⟨HelloWorldLogic.verifying_key_as_bytes, i2,
          HelloWorldWitness.new false created p2 k⟩] :=
  ⟨⟨[(created.commitment, false)]⟩, ⟨[(consumed.nullifier k, true)]⟩,
    { tag := consumed.nullifier k
      is_consumed := true
      root := Digest.node (consumed.nullifier k) created.commitment
      app_data := default },
    { tag := created.commitment
      is_consumed := false
      root := Digest.node (consumed.nullifier k) created.commitment
      app_data := default },
    generate_path_pair_left _ _,
    generate_path_pair_right _ _ (nullifier_ne_commitment consumed created k),
    generate_logic_proofs_eq consumed k created h1 h2 h3 h4⟩

/-- C5 witness: a concrete run over `sampleResource`. -/
theorem generate_logic_proofs_spec_witness :
    (11 ≤ sampleResource.label_ref.length ∧
      sampleResource.label_ref.take 11 = helloWorldBytes) ∧
    (∃ p1 p2 i1 i2,
      (MerkleTree.new [sampleResource.nullifier ⟨[]⟩,
        sampleResource.commitment]).generate_path
        (sampleResource.nullifier ⟨[]⟩) = some p1 ∧
      (MerkleTree.new [sampleResource.nullifier ⟨[]⟩,
        sampleResource.commitment]).generate_path
        sampleResource.commitment = some p2 ∧
      generate_logic_proofs sampleResource ⟨[]⟩ sampleResource = some
        [⟨HelloWorldLogic.verifying_key_as_bytes, i1,
          HelloWorldWitness.new true sampleResource p1 ⟨[]⟩⟩,
         ⟨HelloWorldLogic.verifying_key_as_bytes, i2,
          HelloWorldWitness.new false sampleResource p2 ⟨[]⟩⟩]) :=
  ⟨⟨by decide, by decide⟩,
    generate_logic_proofs_spec sampleResource ⟨[]⟩ sampleResource
      (by decide) (by decide) (by decide) (by decide)⟩

/-- The logic proof `generate_logic_proofs` returns for the consumed
resource. -/
def logicVerifier1 (consumed created : Resource) (k : NullifierKey) :
    LogicVerifier :=
  ⟨HelloWorldLogic.verifying_key_as_bytes,
    { tag := consumed.nullifier k
      is_consumed := true
      root := Digest.node (consumed.nullifier k) created.commitment
      app_data := default },
    HelloWorldWitness.new true consumed ⟨[(created.commitment, false)]⟩ k⟩

/-- The logic proof `generate_logic_proofs` returns for the created
resource. -/
def logicVerifier2 (consumed created : Resource) (k : NullifierKey) :
    LogicVerifier :=
  ⟨HelloWorldLogic.verifying_key_as_bytes,
    { tag := created.commitment
      is_consumed := false
      root := Digest.node (consumed.nullifier k) created.commitment
      app_data := default },
    HelloWorldWitness.new false created ⟨[(consumed.nullifier k, true)]⟩ k⟩

/-- The one-action transaction the hello-world application assembles
from a consumed/created pair, after the delta witness→proof
transition. -/
def assembledTx (consumed created : Resource) (k : NullifierKey)
    (mp : MerklePath) (rcv : Bytes) : Transaction :=
  Transaction.create
    [Action.new
      [ComplianceUnit.create
        (ComplianceWitness.from_resources_with_path consumed k mp created rcv)]
      [logicVerifier1 consumed created k, logicVerifier2 consumed created k]]
    (Delta.proof ⟨leDecode rcv⟩)

/-- Any assembled one-action transaction over a consumed/created pair
with matching quantities and valid labels passes `verify`. -/
theorem assembledTx_verifies (consumed created : Resource)
    (k : NullifierKey) (mp : MerklePath) (rcv : Bytes)
    (hl1 : 11 ≤ consumed.label_ref.length)
    (hl2 : consumed.label_ref.take 11 = helloWorldBytes)
    (hl3 : 11 ≤ created.label_ref.length)
    (hl4 : created.label_ref.take 11 = helloWorldBytes)
    (hq : consumed.quantity = created.quantity) :
    (assembledTx consumed created k mp rcv).verify = true := by
  have hc1 := constrain_eq_some
    ⟨true, consumed, ⟨[(created.commitment, false)]⟩, k⟩ hl1 hl2
  have hc2 := constrain_eq_some
    ⟨false, created, ⟨[(consumed.nullifier k, true)]⟩, k⟩ hl3 hl4
  simp [assembledTx, Transaction.verify, Transaction.create, Action.new,
    Transaction.deltaOk, Action.crossCheck, Action.tags,
    ComplianceUnit.verify, ComplianceUnit.create,
    ComplianceWitness.from_resources_with_path, LogicVerifier.verify,
    logicVerifier1, logicVerifier2, HelloWorldWitness.new, hc1, hc2,
    Resource.tag, path_root_single, root_pair, hq,
    HelloWorldLogic.verifying_key_as_bytes]

/-- The transaction `create_transaction` assembles, written out. -/
def txOf (k : NullifierKey) (nonce seed : Bytes)
    (cm : NullifierKeyCommitment) (fresh rcv : Bytes) : Transaction :=
  assembledTx (ephemeralResourceVal k.commit nonce seed)
    (generate_persistent_resource (ephemeralResourceVal k.commit nonce seed)
      k cm fresh)
    k default rcv

/-- `create_transaction` evaluates to `txOf`. -/
theorem create_transaction_eq (k : NullifierKey) (nonce seed : Bytes)
    (cm : NullifierKeyCommitment) (fresh rcv : Bytes)
    (h : nonce.length = 32) :
    create_transaction k nonce seed cm fresh rcv =
      some (txOf k nonce seed cm fresh rcv) := by
  have hcons := generate_ephemeral_resource_eq k.commit nonce seed h
  have hlp := generate_logic_proofs_eq (ephemeralResourceVal k.commit nonce seed)
    k
    (generate_persistent_resource (ephemeralResourceVal k.commit nonce seed)
      k cm fresh)
    (ephemeralResourceVal_label_len k.commit nonce seed)
    (ephemeralResourceVal_label_take k.commit nonce seed)
    (helloLabel_len) (helloLabel_take)
  simp [create_transaction, hcons, hlp, txOf, assembledTx, logicVerifier1,
    logicVerifier2, generate_compliance_proof,
    ComplianceWitness.from_resources_with_path, Transaction.create,
    Transaction.generate_delta_proof, DeltaWitness.from_bytes, Action.new]

/-- The assembled transaction passes `verify`. -/
theorem txOf_verifies (k : NullifierKey) (nonce seed : Bytes)
    (cm : NullifierKeyCommitment) (fresh rcv : Bytes) :
    (txOf k nonce seed cm fresh rcv).verify = true := by
  apply assembledTx_verifies
  · exact helloLabel_len
  · exact helloLabel_take
  · exact helloLabel_len
  · exact helloLabel_take
  · rfl

/-- C1: for every choice of the randomness drawn by the hello-world
application (ephemeral nullifier key, 32-byte nonce, creation and
refresh randomness, persistent key commitment, compliance blinding
scalar), `create_transaction` succeeds and `verify()` on the resulting
transaction returns `true` (the proving backend being modelled as sound
and complete). -/
theorem create_transaction_end_to_end_verifies (k : NullifierKey)
    (nonce seed : Bytes) (cm : NullifierKeyCommitment)
    (fresh rcv : Bytes) (h : nonce.length = 32) :
    ∃ tx, create_transaction k nonce seed cm fresh rcv = some tx ∧
      tx.verify = true :=
  ⟨txOf k nonce seed cm fresh rcv,
    create_transaction_eq k nonce seed cm fresh rcv h,
    txOf_verifies k nonce seed cm fresh rcv⟩

/-- C1 witness: a concrete run with a 32-byte nonce. -/
theorem create_transaction_end_to_end_verifies_witness :
    (List.replicate 32 0 : Bytes).length = 32 ∧
    (∃ tx, create_transaction ⟨[]⟩ (List.replicate 32 0) [] ⟨[]⟩ [] [] =
        some tx ∧ tx.verify = true) :=
  ⟨by decide,
    create_transaction_end_to_end_verifies ⟨[]⟩ (List.replicate 32 0) []
      ⟨[]⟩ [] [] (by decide)⟩

end Anoma
